import Mathlib

/-!
Shallow embedding of the catmon event-admission and pipeline-orchestration
core (`catmon.py`, `catmon_test_mode_manager.py`), together with theorems
settling the specification claims about it.

Conventions of the embedding:
* timestamps are rationals measured in seconds (`datetime` differences in the
  source are float seconds via `total_seconds()`);
* a raw sensor transition carries the time at which the edge fired and the
  live GPIO level re-read after the bounce interval (`GPIO.input` at
  `catmon.py:339`), `level = true` meaning high;
* fallible Python code (functions that may `raise`) returns `Except`;
* external collaborators (glob, random choice, the classifier, camera,
  Google Drive, Twitter) are passed in as explicit function parameters or
  data, so every definition is executable.
-/

/-- Python `datetime` value restricted to the fields the source reads
(`event_time.hour`, `.day`, `.month` in `get_tweet_text_for_cfn`). -/
structure EventTime where
  hour : Nat
  day : Nat
  month : Nat
deriving DecidableEq, Repr

/-- A raw reed-switch transition: the time `datetime.now()` observed after
`GPIO.wait_for_edge` returns (`catmon.py:335`) and the live pin level
re-read afterwards (`catmon.py:339`), `true` = high. -/
structure Transition where
  timestamp : ℚ
  level : Bool
deriving DecidableEq, Repr

/-- Python exceptions raised by the modelled code. `valueError` models
`ValueError(msg)`; the remaining constructors stand for collaborator
exceptions (camera, classifier, Google Drive, Twitter) that the event loop
may receive from a pipeline run. -/
inductive CatmonError where
  | valueError (msg : String)
  | captureError
  | classificationError
  | uploadError
  | notificationError
deriving DecidableEq, Repr

/-- `EVENT_GAP = 5` (`catmon.py:103`): ignore subsequent events for this many
seconds after an admitted event. -/
def EVENT_GAP : ℚ := 5

/-- `TWEET_BOILER_PLATE_TEXT` (`catmon.py:104`). -/
def TWEET_BOILER_PLATE_TEXT : String := "Auto-tweet from catmon2:"

/-- `CatmonTestModeManager.test_file_prefix = 'test_'`
(`catmon_test_mode_manager.py:46`; shortened Lean name). -/
def test_file_pref : String := "test_"

/-- `CatmonTestModeManager.image_pattern_default`
(`catmon_test_mode_manager.py:49`). -/
def image_pattern_default : String := "./images/unseen*"

/-- `CatmonTestModeManager` mode flags (`catmon_test_mode_manager.py:51`). -/
structure CatmonTestModeManager where
  mode_no_gpio : Bool
  mode_sim_cam_image : Bool
deriving DecidableEq, Repr

/-- `is_testing = True if any(init_params) else False`
(`catmon_test_mode_manager.py:58`). -/
def CatmonTestModeManager.is_testing (m : CatmonTestModeManager) : Bool :=
  m.mode_no_gpio || m.mode_sim_cam_image

/-!
## The event gate (`Catmon.reed_switch_event_loop`, `catmon.py:313-361`)

One iteration of the wait loop, after `wait_for_edge` returns, does:
1. re-read the pin; if low, log a false alarm and `continue` (line 339-343);
2. if `prev_event_time is None`, call the handler and set it (line 347-349);
3. else if the gap `secs_diff(event_time, prev_event_time)` is `< EVENT_GAP`,
   log and ignore (line 353-355);
4. else call the handler and set `prev_event_time` (line 356-358).
`gateStep` returns the new `prev_event_time` and whether the transition was
admitted (i.e. the handler was called for it).
-/

/-- One gate decision of the wait loop body (`catmon.py:339-358`). -/
def gateStep (prev : Option ℚ) (t : Transition) : Option ℚ × Bool :=
  if t.level = false then
    (prev, false)
  else
    match prev with
    | none => (some t.timestamp, true)
    | some p =>
      if t.timestamp - p < EVENT_GAP then (prev, false)
      else (some t.timestamp, true)

/-- The timestamps admitted by the gate over a finite sequence of raw
transitions, starting from a given `prev_event_time` (pure view of the loop
`catmon.py:313-358`, with the handler's effects ignored). -/
def gateAdmittedTimes : Option ℚ → List Transition → List ℚ
  | _, [] => []
  | prev, t :: ts =>
    if (gateStep prev t).2 then
      t.timestamp :: gateAdmittedTimes (gateStep prev t).1 ts
    else
      gateAdmittedTimes (gateStep prev t).1 ts

/-!
## The wait loop with handler effects

The loop body wraps each iteration in `try/except`; on any exception from the
handler it logs and re-raises (`catmon.py:359-361`), which exits the
`while True` loop. The handler is abstracted as a fallible function; it is
passed `some t` for a sensor event admitted at time `t` and `none` for the
single synthetic invocation made in `mode_no_gpio` (`catmon.py:319-325`,
where the handler receives only the pin number). The result records, in
order, the invocations of the handler and the exception that escaped the
loop, if any (`none` when the modelled transition list ran out, standing for
the loop blocking again on `wait_for_edge`).
-/

/-- Sensor-driven iterations of `reed_switch_event_loop`
(`catmon.py:327-361`). -/
def loopAux (h : Option ℚ → Except CatmonError Unit) :
    Option ℚ → List Transition → List (Option ℚ) × Option CatmonError
  | _, [] => ([], none)
  | prev, t :: ts =>
    if (gateStep prev t).2 then
      match h (some t.timestamp) with
      | .error e => ([some t.timestamp], some e)
      | .ok _ =>
        let r := loopAux h (gateStep prev t).1 ts
        (some t.timestamp :: r.1, r.2)
    else
      loopAux h (gateStep prev t).1 ts

/-- `Catmon.reed_switch_event_loop` (`catmon.py:313-361`): when
`mode_no_gpio` is set the loop never reaches `wait_for_edge` — it calls the
handler once and `break`s (`catmon.py:319-325`); otherwise it starts the
sensor-driven wait loop with `prev_event_time = None` (`catmon.py:315`). -/
def reed_switch_event_loop (mode_no_gpio : Bool)
    (h : Option ℚ → Except CatmonError Unit) (ts : List Transition) :
    List (Option ℚ) × Option CatmonError :=
  if mode_no_gpio then
    match h none with
    | .error e => ([none], some e)
    | .ok _ => ([none], none)
  else
    loopAux h none ts

/-!
## Routing (`Catmon.get_gdrive_folder_for_cfn`, `catmon.py:492-509`, and the
`CLASSIFY_ON` branch of the upload step, `catmon.py:441-448`)
-/

/-- The `gdrive_folders_dict` read from the config file
(`catmon.py:271-277`), one field per config key. -/
structure GdriveFolders where
  gdrive_default_folder : String
  gdrive_default_folder_id : String
  gdrive_boo_folder : String
  gdrive_boo_folder_id : String
  gdrive_simba_folder : String
  gdrive_simba_folder_id : String
  gdrive_unknown_folder : String
  gdrive_unknown_folder_id : String
  gdrive_auto_discard_folder : String
  gdrive_auto_discard_folder_id : String
deriving DecidableEq, Repr

/-- `Catmon.get_gdrive_folder_for_cfn` (`catmon.py:492-509`): target folder
name and id for a classification label; raises `ValueError` for any label
outside `boo`/`simba`/`unknown`. -/
def get_gdrive_folder_for_cfn (folders : GdriveFolders) (cfn_label : String) :
    Except CatmonError (String × String) :=
  if cfn_label = "boo" then
    .ok (folders.gdrive_boo_folder, folders.gdrive_boo_folder_id)
  else if cfn_label = "simba" then
    .ok (folders.gdrive_simba_folder, folders.gdrive_simba_folder_id)
  else if cfn_label = "unknown" then
    .ok (folders.gdrive_unknown_folder, folders.gdrive_unknown_folder_id)
  else
    .error (.valueError ("cfn_label " ++ cfn_label ++ " not recognised"))

/-- The upload-target selection of the event handler (`catmon.py:441-448`)
as a function of the possibly-unset classification label: in the source the
branch tests `CLASSIFY_ON`, and the label is unset (`None`) exactly when
`CLASSIFY_ON` is false (`catmon.py:429`), so `none` here is that branch. -/
def route_for_label (folders : GdriveFolders) :
    Option String → Except CatmonError (String × String)
  | some l => get_gdrive_folder_for_cfn folders l
  | none =>
    .ok (folders.gdrive_default_folder, folders.gdrive_default_folder_id)

/-!
## Tweet text (`Catmon.get_tweet_text_for_cfn`, `catmon.py:511-551`)
-/

/-- The greeting computed at `catmon.py:518-527`: three hour bands, with
" and Happy Christmas" appended exactly on day 25 of month 12. -/
def greeting (event_time : EventTime) : String :=
  let g :=
    if event_time.hour < 12 then "Good morning"
    else if 12 ≤ event_time.hour ∧ event_time.hour < 18 then "Good afternoon"
    else "Good evening"
  if event_time.day = 25 ∧ event_time.month = 12 then
    g ++ " and Happy Christmas"
  else
    g

/-- Python `'{:.1%}'.format(p)`: `p` as a percentage with one decimal place.
Modelled over `ℚ` as rounding `p * 1000` to the nearest integer number of
tenths of a percent (Python rounds the underlying double; for values that
are not ties, such as `0.42`, the two agree). -/
def format_pct_1dp (p : ℚ) : String :=
  let tenths : ℤ := round (p * 1000)
  toString (tenths / 10) ++ "." ++ toString (tenths % 10) ++ "%"

/-- `Catmon.get_tweet_text_for_cfn` (`catmon.py:511-551`): tweet text for a
classification; raises `ValueError` for an unrecognised label. -/
def get_tweet_text_for_cfn (cfn_label : String) (cfn_model_name : String)
    (cfn_probability : ℚ) (image_file : String) (event_time : EventTime) :
    Except CatmonError String :=
  let greet := greeting event_time
  if cfn_label = "boo" then
    .ok (greet ++ " Boo, aka Fluff Bag!\n\nCatmonic (using " ++
      cfn_model_name ++ ") says the likelihood of Boo is " ++
      format_pct_1dp cfn_probability ++ "\n\n" ++
      TWEET_BOILER_PLATE_TEXT ++ " " ++ image_file)
  else if cfn_label = "simba" then
    .ok (greet ++ " Simba, aka Mr Handsome!\n\nCatmonic (using " ++
      cfn_model_name ++ ") says the likelihood of Simba is " ++
      format_pct_1dp cfn_probability ++ "\n\n" ++
      TWEET_BOILER_PLATE_TEXT ++ " " ++ image_file)
  else if cfn_label = "unknown" then
    .ok (greet ++ " cat of mystery!\n\nCatmonic (using " ++
      cfn_model_name ++ ") says the likelihood is " ++
      format_pct_1dp cfn_probability ++ "\n\n" ++
      TWEET_BOILER_PLATE_TEXT ++ " " ++ image_file)
  else
    .error (.valueError ("cfn_label " ++ cfn_label ++ " not recognised"))

/-!
## Substitute test images (`CatmonTestModeManager.get_test_image`,
`catmon_test_mode_manager.py:63-95`)

The filesystem effects are made explicit: `glob` is the `glob.glob`
collaborator, `choice` the `random.choice` collaborator (a fixed selection
function, standing for one concrete draw per call site), and `cwd` the set
of file names already present in the working directory; `shutil.copy`
extends `cwd`.
-/

/-- `os.path.basename`: the component after the last path separator. -/
def basename (p : String) : String :=
  let sep := "/"
  (p.splitOn sep).getLastD p

/-- The pattern-defaulting step `if not image_pattern: image_pattern =
self.image_pattern_default` (`catmon_test_mode_manager.py:72-74`); Python
truthiness makes both `None` and the empty string fall back. -/
def resolvePattern : Option String → String
  | none => image_pattern_default
  | some p => if p = "" then image_pattern_default else p

/-- `CatmonTestModeManager.get_test_image`
(`catmon_test_mode_manager.py:63-95`). Returns the name handed back to the
caller (`none` models Python `return None` when the glob matches nothing)
and the working directory after any copy. -/
def get_test_image (glob : String → List String)
    (choice : List String → String) (cwd : List String)
    (image_pattern : Option String) (copy_to_cwd : Bool) :
    Option String × List String :=
  let pat := resolvePattern image_pattern
  let image_list := glob pat
  if image_list = [] then
    (none, cwd)
  else
    let image_choice := choice image_list
    if copy_to_cwd then
      let test_image_name := test_file_pref ++ basename image_choice
      if test_image_name ∈ cwd then
        (some test_image_name, cwd)
      else
        (some test_image_name, test_image_name :: cwd)
    else
      (some image_choice, cwd)

/-!
## The pipeline run (`Catmon.reed_switch_event_handler`, `catmon.py:363-490`)

One run of the pipeline for an admitted event. The external collaborators
and process-wide flags it consults are gathered in `HandlerEnv`:
`classify_on`/`gdrive_on`/`tweet_on` are `CLASSIFY_ON`/`GDRIVE_ON`/`TWEET_ON`
(`catmon.py:124-126`), `base_name` is the timestamp part of the generated
image filename (`datetime.now().strftime(...) + '.jpg'`, `catmon.py:380`),
and `classifier` is `catmonic_clf.predict_catmon_image` returning
(label, probability, model name). The real camera capture, the Google Drive
upload and the Twitter calls are modelled on their success path (their
failures reach the event loop as exceptions, which the loop model takes
abstractly); the run's observable outcome is returned as a `HandlerResult`.
-/

/-- Collaborators and flags consulted by one pipeline run. -/
structure HandlerEnv where
  tester : CatmonTestModeManager
  classify_on : Bool
  gdrive_on : Bool
  tweet_on : Bool
  folders : GdriveFolders
  base_name : String
  glob : String → List String
  choice : List String → String
  cwd : List String
  classifier : String → String × ℚ × String
  event_time : EventTime

/-- Observable outcome of one successful pipeline run: the image file the
run worked on, the classification triple (unset when `CLASSIFY_ON` is
false), the Google Drive folder (name, id) uploaded to (unset when
`GDRIVE_ON` is false) and the tweet text posted (unset when `TWEET_ON` is
false). -/
structure HandlerResult where
  image_file : String
  cfn : Option (String × ℚ × String)
  upload : Option (String × String)
  tweet : Option String
deriving DecidableEq, Repr

/-- `Catmon.reed_switch_event_handler` (`catmon.py:363-490`), with effects
reified. Stage order follows the source: filename generation
(`catmon.py:377-380`), capture, the `mode_sim_cam_image` override raising
`ValueError` when `get_test_image` finds nothing (`catmon.py:404-414`),
classification (`catmon.py:417-429`), Google Drive routing and upload
(`catmon.py:432-456`), tweet construction and posting
(`catmon.py:459-486`). -/
def reed_switch_event_handler (env : HandlerEnv) :
    Except CatmonError HandlerResult := do
  let image_file0 :=
    (if env.tester.is_testing then test_file_pref else "") ++ env.base_name
  let image_file ←
    if env.tester.mode_sim_cam_image then
      match (get_test_image env.glob env.choice env.cwd none true).1 with
      | some f => pure f
      | none =>
        Except.error
          (.valueError ("unexpected error, no image file found for pattern"))
    else
      pure image_file0
  let cfn : Option (String × ℚ × String) :=
    if env.classify_on then some (env.classifier image_file) else none
  let upload ←
    if env.gdrive_on then do
      let target ← route_for_label env.folders (cfn.map Prod.fst)
      pure (some target)
    else
      pure none
  let tweet ←
    if env.tweet_on then
      match cfn with
      | some (l, p, m) => do
        let text ← get_tweet_text_for_cfn l m p image_file env.event_time
        pure (some text)
      | none => pure (some (TWEET_BOILER_PLATE_TEXT ++ " " ++ image_file))
    else
      pure none
  pure { image_file := image_file, cfn := cfn, upload := upload,
         tweet := tweet }

/-!
## Theorems
-/

/-- A transition the gate admits necessarily had the high level on re-read
(`catmon.py:339-343` is checked before either admission branch). -/
theorem gateStep_admit_level (prev : Option ℚ) (t : Transition)
    (h : (gateStep prev t).2 = true) : t.level = true := by
  cases t with
  | mk x lv =>
    cases lv
    · simp [gateStep] at h
    · rfl

/-- C1: the first level-passing transition (previous event time unset) is
admitted unconditionally; a later one is admitted iff its timestamp minus
the last admitted timestamp is at least `EVENT_GAP` (5 s); a sub-gap
transition is dropped with the previous event time unchanged, so the gap is
measured from the last admitted event; concretely, from transitions at
t=0, 3, 6 the gate admits exactly t=0 and t=6. -/
theorem gate_gap_admission_policy :
    (∀ x : ℚ, gateStep none ⟨x, true⟩ = (some x, true)) ∧
    (∀ p x : ℚ,
      (gateStep (some p) ⟨x, true⟩).2 = true ↔ EVENT_GAP ≤ x - p) ∧
    (∀ p x : ℚ, x - p < EVENT_GAP →
      gateStep (some p) ⟨x, true⟩ = (some p, false)) ∧
    (∀ p x : ℚ, EVENT_GAP ≤ x - p →
      gateStep (some p) ⟨x, true⟩ = (some x, true)) ∧
    gateAdmittedTimes none [⟨0, true⟩, ⟨3, true⟩, ⟨6, true⟩] = [0, 6] := by
  refine ⟨fun x => rfl, fun p x => ?_, fun p x h => ?_, fun p x h => ?_,
    by norm_num [gateAdmittedTimes, gateStep, EVENT_GAP]⟩
  · by_cases h : x - p < EVENT_GAP
    · simp [gateStep, h]
    · simp [gateStep, h]
      exact not_lt.mp h
  · simp [gateStep, h]
  · simp [gateStep, not_lt.mpr h]

/-- Witness for `gate_gap_admission_policy`: a drop at gap 3 and an
admission at gap 6 against a previous event at t=0. -/
theorem gate_gap_admission_policy_witness :
    gateStep (some 0) ⟨3, true⟩ = (some 0, false) ∧
    gateStep (some 0) ⟨6, true⟩ = (some 6, true) :=
  ⟨gate_gap_admission_policy.2.2.1 0 3 (by norm_num [EVENT_GAP]),
   gate_gap_admission_policy.2.2.2.1 0 6 (by norm_num [EVENT_GAP])⟩

/-- C4: a transition whose re-read level is low is discarded with no state
change, and over any transition sequence every handler invocation of the
wait loop comes from a transition whose re-read level was high — no
pipeline run ever starts from a low-level transition. -/
theorem low_level_never_admitted :
    (∀ (prev : Option ℚ) (x : ℚ), gateStep prev ⟨x, false⟩ = (prev, false)) ∧
    (∀ (h : Option ℚ → Except CatmonError Unit) (prev : Option ℚ)
      (ts : List Transition) (x : ℚ),
      some x ∈ (loopAux h prev ts).1 →
      ∃ t ∈ ts, t.timestamp = x ∧ t.level = true) := by
  constructor
  · intro prev x
    cases prev <;> rfl
  · intro h prev ts
    induction ts generalizing prev with
    | nil => simp [loopAux]
    | cons t ts ih =>
      intro x hx
      by_cases hadm : (gateStep prev t).2 = true
      · have hlv := gateStep_admit_level prev t hadm
        rw [loopAux, if_pos hadm] at hx
        cases herr : h (some t.timestamp) with
        | error e =>
          rw [herr] at hx
          simp at hx
          exact ⟨t, List.mem_cons_self t ts, hx.symm, hlv⟩
        | ok u =>
          rw [herr] at hx
          simp at hx
          rcases hx with hx | hx
          · exact ⟨t, List.mem_cons_self t ts, hx.symm, hlv⟩
          · obtain ⟨t', ht', he⟩ := ih (gateStep prev t).1 x hx
            exact ⟨t', List.mem_cons_of_mem t ht', he⟩
      · rw [loopAux, if_neg hadm] at hx
        obtain ⟨t', ht', he⟩ := ih (gateStep prev t).1 x hx
        exact ⟨t', List.mem_cons_of_mem t ht', he⟩

/-- Witness for `low_level_never_admitted`: a concrete run admitting t=0
instantiates the second conjunct. -/
theorem low_level_never_admitted_witness :
    ∃ t ∈ [Transition.mk 0 true], t.timestamp = 0 ∧ t.level = true :=
  low_level_never_admitted.2 (fun _ => .ok ()) none [⟨0, true⟩] 0 (by decide)

/-- C10: the gate's previous-event-time state is unchanged by every
discarded transition (low level or sub-gap alike) and is set to the
transition's timestamp exactly when the transition is admitted. -/
theorem prev_event_time_frame :
    ∀ (prev : Option ℚ) (t : Transition),
      (gateStep prev t).1 =
        if (gateStep prev t).2 = true then some t.timestamp else prev := by
  intro prev t
  cases t with
  | mk x lv =>
    cases lv
    all_goals cases prev
    all_goals simp [gateStep]
    split
    all_goals simp_all

/-- C7: with `mode_no_gpio` set the loop never consumes a sensor transition;
it performs exactly one synthetic handler invocation and stops: the result
is the same whatever the transition sequence, and its invocation list is
the single synthetic call. -/
theorem no_gpio_single_shot (h : Option ℚ → Except CatmonError Unit)
    (ts : List Transition) :
    (reed_switch_event_loop true h ts).1 = [none] ∧
    reed_switch_event_loop true h ts = reed_switch_event_loop true h [] := by
  refine ⟨?_, rfl⟩
  simp only [reed_switch_event_loop, if_true]
  cases h none <;> rfl

/-- C2 (amended): an error raised by a pipeline run does not leave the loop
waiting for the next transition — the loop's `except` clause re-raises it
(`catmon.py:359-361`), so the loop terminates at the first admitted event
whose run fails, with no later transition processed. -/
theorem loop_stage_error_terminates
    (h : Option ℚ → Except CatmonError Unit) (prev : Option ℚ)
    (t : Transition) (ts : List Transition) (e : CatmonError)
    (hAd : (gateStep prev t).2 = true)
    (herr : h (some t.timestamp) = .error e) :
    loopAux h prev (t :: ts) = ([some t.timestamp], some e) := by
  simp only [loopAux, hAd, if_true, herr]

/-- Witness for `loop_stage_error_terminates`: a handler failing with a
capture error at an admitted first event stops the loop there. -/
theorem loop_stage_error_terminates_witness :
    loopAux (fun _ => .error .captureError) none [⟨0, true⟩, ⟨10, true⟩] =
      ([some 0], some .captureError) :=
  loop_stage_error_terminates (fun _ => .error .captureError) none
    ⟨0, true⟩ [⟨10, true⟩] .captureError rfl rfl

/-- A pipeline environment in simulated-capture mode whose substitute-image
glob matches no file, so the run raises `ValueError`
(`catmon.py:404-414`). -/
def simFailEnv : HandlerEnv where
  tester := ⟨false, true⟩
  classify_on := true
  gdrive_on := true
  tweet_on := true
  folders := ⟨"d", "di", "b", "bi", "s", "si", "u", "ui", "a", "ai"⟩
  base_name := "2023-10-01_120000.jpg"
  glob := fun _ => []
  choice := fun l => l.headD ""
  cwd := []
  classifier := fun _ => ("boo", 9 / 10, "mobilenetv2")
  event_time := ⟨14, 1, 10⟩

/-- The event-loop view of a run of `reed_switch_event_handler` over
`simFailEnv`: every invocation fails with the missing-substitute error. -/
def simFailHandler : Option ℚ → Except CatmonError Unit :=
  fun _ => (reed_switch_event_handler simFailEnv).map fun _ => ()

/-- C2 counterexample: a stage error (missing substitute image, the spec's
`SimulationImageNotFound`) at the first admitted event does not leave the
loop running — the error escapes the loop and the perfectly admissible
transition at t=10 is never handled, contradicting the claim that the loop
continues to wait for the next sensor transition. -/
theorem loop_error_continues_cex :
    reed_switch_event_loop false simFailHandler [⟨0, true⟩, ⟨10, true⟩] =
      ([some 0],
        some (.valueError
          ("unexpected error, no image file found for pattern"))) ∧
    some (10 : ℚ) ∉
      (reed_switch_event_loop false simFailHandler
        [⟨0, true⟩, ⟨10, true⟩]).1 := by
  constructor
  · rfl
  · decide

/-- C3: the upload-routing step is a total function of the possibly-unset
label: an unset label (classification disabled) routes to the configured
default destination; each of `boo`, `simba`, `unknown` routes to its own
configured destination (folder name and id); every other label fails the
run with the source's `ValueError` (the spec's `InvalidClassification`),
never falling back to the default route. -/
theorem routing_totality (folders : GdriveFolders) :
    route_for_label folders none =
      .ok (folders.gdrive_default_folder, folders.gdrive_default_folder_id) ∧
    route_for_label folders (some "boo") =
      .ok (folders.gdrive_boo_folder, folders.gdrive_boo_folder_id) ∧
    route_for_label folders (some "simba") =
      .ok (folders.gdrive_simba_folder, folders.gdrive_simba_folder_id) ∧
    route_for_label folders (some "unknown") =
      .ok (folders.gdrive_unknown_folder, folders.gdrive_unknown_folder_id) ∧
    ∀ l : String, l ≠ "" → l ≠ "boo" → l ≠ "simba" → l ≠ "unknown" →
      route_for_label folders (some l) =
        .error (.valueError ("cfn_label " ++ l ++ " not recognised")) := by
  refine ⟨rfl, rfl, rfl, rfl, fun l h0 hb hs hu => ?_⟩
  simp [route_for_label, get_gdrive_folder_for_cfn, hb, hs, hu]

/-- Witness for `routing_totality`: the label `tiger` against a sample
configuration yields the routing error, not the default route. -/
theorem routing_totality_witness :
    route_for_label ⟨"d", "di", "b", "bi", "s", "si", "u", "ui", "a", "ai"⟩
        (some "tiger") =
      .error (.valueError ("cfn_label " ++ "tiger" ++ " not recognised")) :=
  (routing_totality _).2.2.2.2 "tiger" (by decide) (by decide) (by decide)
    (by decide)

/-- C8: in a run with classification disabled and upload and notification
enabled (and real capture), the classification triple stays unset, the
image goes to the configured default destination, and the tweet text is
exactly the boilerplate tag, a space and the image identifier — no
greeting, no confidence. -/
theorem classify_off_pipeline (env : HandlerEnv)
    (hc : env.classify_on = false) (hg : env.gdrive_on = true)
    (ht : env.tweet_on = true) (hs : env.tester.mode_sim_cam_image = false) :
    reed_switch_event_handler env =
      .ok { image_file :=
              (if env.tester.is_testing then test_file_pref else "") ++
                env.base_name,
            cfn := none,
            upload := some (env.folders.gdrive_default_folder,
              env.folders.gdrive_default_folder_id),
            tweet := some (TWEET_BOILER_PLATE_TEXT ++ " " ++
              ((if env.tester.is_testing then test_file_pref else "") ++
                env.base_name)) } := by
  simp [reed_switch_event_handler, hc, hg, ht, hs, route_for_label]

/-- A concrete environment with classification off, upload and notification
on, and no simulation modes. -/
def classifyOffEnv : HandlerEnv where
  tester := ⟨false, false⟩
  classify_on := false
  gdrive_on := true
  tweet_on := true
  folders := ⟨"d", "di", "b", "bi", "s", "si", "u", "ui", "a", "ai"⟩
  base_name := "2023-10-01_120000.jpg"
  glob := fun _ => []
  choice := fun l => l.headD ""
  cwd := []
  classifier := fun _ => ("boo", 9 / 10, "mobilenetv2")
  event_time := ⟨14, 1, 10⟩

/-- Witness for `classify_off_pipeline` at `classifyOffEnv`. -/
theorem classify_off_pipeline_witness :
    reed_switch_event_handler classifyOffEnv =
      .ok { image_file :=
              (if classifyOffEnv.tester.is_testing then test_file_pref
                else "") ++ classifyOffEnv.base_name,
            cfn := none,
            upload := some (classifyOffEnv.folders.gdrive_default_folder,
              classifyOffEnv.folders.gdrive_default_folder_id),
            tweet := some (TWEET_BOILER_PLATE_TEXT ++ " " ++
              ((if classifyOffEnv.tester.is_testing then test_file_pref
                else "") ++ classifyOffEnv.base_name)) } :=
  classify_off_pipeline classifyOffEnv rfl rfl rfl rfl

/-- C6: when the glob for the given (or defaulted) pattern matches no file,
`get_test_image` returns `None` — not an error — and leaves the working
directory untouched; a simulated-capture pipeline run then raises
`ValueError`, so the absent substitute image is fatal for that run rather
than silently skipped. -/
theorem missing_substitute_fatal :
    (∀ (glob : String → List String) (choice : List String → String)
      (cwd : List String) (pat : Option String) (c : Bool),
      glob (resolvePattern pat) = [] →
      get_test_image glob choice cwd pat c = (none, cwd)) ∧
    (∀ env : HandlerEnv, env.tester.mode_sim_cam_image = true →
      env.glob image_pattern_default = [] →
      reed_switch_event_handler env =
        .error (.valueError
          ("unexpected error, no image file found for pattern"))) := by
  constructor
  · intro glob choice cwd pat c hglob
    simp [get_test_image, hglob]
  · intro env hm hglob
    simp [reed_switch_event_handler, hm, get_test_image, resolvePattern,
      hglob, Bind.bind, Except.bind]

/-- Witness for `missing_substitute_fatal`: an empty glob and the
simulated-capture environment `simFailEnv`. -/
theorem missing_substitute_fatal_witness :
    get_test_image (fun _ => []) (fun l => l.headD "") [] none true =
      (none, []) ∧
    reed_switch_event_handler simFailEnv =
      .error (.valueError
        ("unexpected error, no image file found for pattern")) :=
  ⟨missing_substitute_fatal.1 (fun _ => []) (fun l => l.headD "") [] none
      true rfl,
    missing_substitute_fatal.2 simFailEnv rfl rfl⟩

/-- C9: the substitute-image materializer is idempotent: when the glob
matches at least one file, the first call returns the test-prefixed name of
the chosen file and copies at most one new file into the directory, and a
second call over the resulting directory changes nothing and returns the
same name (and no error). -/
theorem materializer_idempotent (glob : String → List String)
    (choice : List String → String) (cwd : List String)
    (pat : Option String) (hne : glob (resolvePattern pat) ≠ []) :
    (get_test_image glob choice cwd pat true).1 =
      some (test_file_pref ++
        basename (choice (glob (resolvePattern pat)))) ∧
    ((get_test_image glob choice cwd pat true).2 = cwd ∨
      (get_test_image glob choice cwd pat true).2 =
        (test_file_pref ++
          basename (choice (glob (resolvePattern pat)))) :: cwd) ∧
    get_test_image glob choice (get_test_image glob choice cwd pat true).2
        pat true =
      get_test_image glob choice cwd pat true := by
  by_cases hmem :
    (test_file_pref ++ basename (choice (glob (resolvePattern pat)))) ∈ cwd
  · simp [get_test_image, hne, hmem]
  · simp [get_test_image, hne, hmem]

/-- Witness for `materializer_idempotent`: a one-file glob over an empty
directory. -/
theorem materializer_idempotent_witness :
    (get_test_image (fun _ => ["./images/unseen_boo.jpg"])
        (fun l => l.headD "") [] none true).1 =
      some (test_file_pref ++
        basename ((fun l : List String => l.headD "")
          ((fun _ : String => ["./images/unseen_boo.jpg"])
            (resolvePattern none)))) :=
  (materializer_idempotent (fun _ => ["./images/unseen_boo.jpg"])
    (fun l => l.headD "") [] none (by decide)).1

/-- The Christmas extension of the greeting (`catmon.py:526-527`), named for
stating C5: present exactly on day 25 of month 12, otherwise empty. -/
def christmasSuffix (t : EventTime) : String :=
  if t.day = 25 ∧ t.month = 12 then " and Happy Christmas" else ""

/-- C5: for each recognised label the tweet text consists of the greeting,
the label-specific phrase, the model identifier, the confidence as a
percentage with one decimal place, and the boilerplate tag plus image
identifier; the greeting has exactly three hour bands (before 12, 12 to 17,
otherwise), extended by the additional element exactly on day 25 of
month 12; confidence `0.42` renders as `42.0%`. -/
theorem tweet_text_structure :
    (∀ t : EventTime, t.hour < 12 →
      greeting t = "Good morning" ++ christmasSuffix t) ∧
    (∀ t : EventTime, 12 ≤ t.hour → t.hour < 18 →
      greeting t = "Good afternoon" ++ christmasSuffix t) ∧
    (∀ t : EventTime, 18 ≤ t.hour →
      greeting t = "Good evening" ++ christmasSuffix t) ∧
    (∀ (m i : String) (p : ℚ) (t : EventTime),
      get_tweet_text_for_cfn "boo" m p i t =
        .ok (greeting t ++ " Boo, aka Fluff Bag!\n\nCatmonic (using " ++
          m ++ ") says the likelihood of Boo is " ++ format_pct_1dp p ++
          "\n\n" ++ TWEET_BOILER_PLATE_TEXT ++ " " ++ i)) ∧
    (∀ (m i : String) (p : ℚ) (t : EventTime),
      get_tweet_text_for_cfn "simba" m p i t =
        .ok (greeting t ++ " Simba, aka Mr Handsome!\n\nCatmonic (using " ++
          m ++ ") says the likelihood of Simba is " ++ format_pct_1dp p ++
          "\n\n" ++ TWEET_BOILER_PLATE_TEXT ++ " " ++ i)) ∧
    (∀ (m i : String) (p : ℚ) (t : EventTime),
      get_tweet_text_for_cfn "unknown" m p i t =
        .ok (greeting t ++ " cat of mystery!\n\nCatmonic (using " ++
          m ++ ") says the likelihood is " ++ format_pct_1dp p ++
          "\n\n" ++ TWEET_BOILER_PLATE_TEXT ++ " " ++ i)) ∧
    format_pct_1dp (42 / 100) = "42.0%" := by
  refine ⟨?_, ?_, ?_, fun m i p t => rfl, fun m i p t => rfl,
    fun m i p t => rfl, ?_⟩
  · intro t h
    by_cases hx : t.day = 25 ∧ t.month = 12
    all_goals simp [greeting, christmasSuffix, h, hx, String.append_empty]
  · intro t h h18
    have h1 : ¬t.hour < 12 := by omega
    by_cases hx : t.day = 25 ∧ t.month = 12
    all_goals
      simp [greeting, christmasSuffix, h1, h, h18, hx, String.append_empty]
  · intro t h
    have h1 : ¬t.hour < 12 := by omega
    have h2 : ¬(12 ≤ t.hour ∧ t.hour < 18) := by omega
    by_cases hx : t.day = 25 ∧ t.month = 12
    all_goals simp [greeting, christmasSuffix, h1, h2, hx,
      String.append_empty]
  · have h420 : round ((42 / 100 : ℚ) * 1000) = 420 := by
      norm_num [round_eq]
    simp only [format_pct_1dp, h420]
    rfl

/-- Witness for `tweet_text_structure`: scenario C — label `unknown`,
confidence 0.42, model `m1`, hour 14 on an ordinary date gives the
afternoon greeting and the full text shape. -/
theorem tweet_text_structure_witness :
    greeting ⟨14, 1, 10⟩ = "Good afternoon" ++ christmasSuffix ⟨14, 1, 10⟩ ∧
    get_tweet_text_for_cfn "unknown" "m1" (42 / 100) "img.jpg"
        ⟨14, 1, 10⟩ =
      .ok (greeting ⟨14, 1, 10⟩ ++ " cat of mystery!\n\nCatmonic (using " ++
        "m1" ++ ") says the likelihood is " ++ format_pct_1dp (42 / 100) ++
        "\n\n" ++ TWEET_BOILER_PLATE_TEXT ++ " " ++ "img.jpg") :=
  ⟨tweet_text_structure.2.1 ⟨14, 1, 10⟩ (by norm_num) (by norm_num),
    tweet_text_structure.2.2.2.2.2.1 "m1" "img.jpg" (42 / 100) ⟨14, 1, 10⟩⟩
